import Mathlib

/-!
# `dlss-wrapper.h`: the handle ABI shim

A model of what a C/C++ translation unit holds after the header
`crates/dlss-sys/dlss/include/dlss-wrapper.h` has been processed: the
definitions of the four object-like and function-like names the header
`#define`s, the typedefs and the struct it declares, and the diagnostics a
conforming implementation owes for them.

The header is straight-line conditional text, so processing it is a
composition of one function per source block (`line3`, `lines5to11`, ...),
each a transcription of the `#if`/`#ifndef` nest of that block.

Conventions of the model:
* a name that is tested with `defined(...)` only is a `Bool`; a name whose
  value is compared (`__cplusplus`, `_MSVC_LANG`, `VK_USE_64_BIT_PTR_DEFINES`)
  is an `Option Int`: `none` when it is not defined, else the integer its
  replacement list evaluates to inside `#if`;
* as in the preprocessor, an identifier that is not defined evaluates to `0`
  inside `#if`;
* a `#define` of a name that is already defined with another replacement list
  is diagnosed and the new definition takes effect; with the same replacement
  list it is accepted silently (C11 6.10.3p2);
* a typedef may be repeated with the same type in C++ and from C11 on
  (C11 6.7p3), a struct may never be defined twice; a rejected declaration is
  diagnosed and the earlier one stays;
* `#include <stdint.h>` (line 1) supplies `uint32_t` and `uint64_t`, which are
  built into `CType`; the closing `#include "nvsdk_ngx_helpers_vk.h"`
  (line 58) is the vendor header, which is not part of the repository and is
  not modelled.
-/

namespace DlssWrapper

/-! ## Data model -/

/-- The target signals tested on line 6, `true` when the name is defined. -/
structure TargetSignals where
  __LP64__ : Bool
  _WIN64 : Bool
  __x86_64__ : Bool
  __ILP32__ : Bool
  _M_X64 : Bool
  __ia64 : Bool
  _M_IA64 : Bool
  __aarch64__ : Bool
  __powerpc64__ : Bool
  deriving DecidableEq, Repr

/-- The types that occur in the declarations of the header. -/
inductive CType where
  /-- `uint64_t` of `<stdint.h>` -/
  | uint64_t
  /-- `uint32_t` of `<stdint.h>` -/
  | uint32_t
  /-- `struct tag *`, a pointer to a (possibly incomplete) struct -/
  | structPtr (tag : String)
  /-- `struct tag` -/
  | struct (tag : String)
  /-- a typedef name used as a type -/
  | named (name : String)
  deriving DecidableEq, Repr

/-- Replacement lists of the function-like names `VK_DEFINE_HANDLE(object)` and
`VK_DEFINE_NON_DISPATCHABLE_HANDLE(object)`. -/
inductive HandleBody where
  /-- `typedef struct object##_T* object;` (lines 3 and 31) -/
  | structPtr
  /-- `typedef uint64_t object;` (line 33) -/
  | uint64
  deriving DecidableEq, Repr

/-- Replacement lists of `VK_NULL_HANDLE`. -/
inductive NullBody where
  /-- `nullptr` (line 16) -/
  | nullptr
  /-- `((void*)0)` (line 18) -/
  | voidPtrZero
  /-- `0ULL` (line 21) -/
  | zeroULL
  /-- `0` (line 25) -/
  | zero
  /-- any other replacement list, given before the header is read -/
  | other (text : String)
  deriving DecidableEq, Repr

/-- The names known to the preprocessor that the header reads or writes: the
predefined names it tests and the four names it defines. A build configuration
is the value of this record before the first line. -/
structure Env where
  signals : TargetSignals
  __cplusplus : Option Int
  _MSVC_LANG : Option Int
  __STDC_VERSION__ : Option Int
  VK_DEFINE_HANDLE : Option HandleBody
  VK_USE_64_BIT_PTR_DEFINES : Option Int
  VK_NULL_HANDLE : Option NullBody
  VK_DEFINE_NON_DISPATCHABLE_HANDLE : Option HandleBody
  deriving DecidableEq, Repr

/-- The declarations in scope at file level. -/
structure Scope where
  /-- typedef names, each with the type it denotes -/
  typedefs : List (String × CType)
  /-- struct tags with a complete definition, each with its members -/
  structs : List (String × List (String × CType))
  deriving DecidableEq, Repr

/-- The `#define` directives of the header, by the name they define. -/
inductive Directive where
  /-- `#define VK_DEFINE_HANDLE(object) ...` -/
  | defHandle (body : HandleBody)
  /-- `#define VK_USE_64_BIT_PTR_DEFINES ...` -/
  | defPtrDefines (value : Int)
  /-- `#define VK_NULL_HANDLE ...` -/
  | defNull (body : NullBody)
  /-- `#define VK_DEFINE_NON_DISPATCHABLE_HANDLE(object) ...` -/
  | defNonDispatchable (body : HandleBody)
  deriving DecidableEq, Repr

/-- One executed `#define`, with whether its name was defined at that point. -/
structure DefineEvent where
  directive : Directive
  alreadyDefined : Bool
  deriving DecidableEq, Repr

/-- Diagnostics owed for the text of the header. -/
inductive Diagnostic where
  /-- a name redefined with a different replacement list -/
  | redefined (name : String)
  /-- a function-like name invoked while not defined -/
  | notDefined (name : String)
  /-- a typedef name declared again with a different type -/
  | typedefConflict (name : String)
  /-- a typedef name declared again with the same type before C11 -/
  | typedefRedeclared (name : String)
  /-- a struct defined twice -/
  | structRedefinition (tag : String)
  /-- a typedef of `name` whose type is a name that is not declared -/
  | unknownType (name : String)
  deriving DecidableEq, Repr

/-- The state while the header is processed: the names the preprocessor knows,
the declarations in scope, and a record of what the header has done so far. -/
structure Outcome where
  env : Env
  scope : Scope
  /-- the `#define` directives executed so far, in order -/
  defines : List DefineEvent
  /-- the typedef declarations issued so far, in order, as written -/
  declared : List (String × CType)
  /-- the struct definitions issued so far -/
  structsDefined : List String
  diagnostics : List Diagnostic
  deriving DecidableEq, Repr

/-- The state before the first line. -/
def Outcome.start (env : Env) (scope : Scope) : Outcome :=
  { env := env, scope := scope, defines := [], declared := [], structsDefined := [],
    diagnostics := [] }

/-! ## Directives and declarations -/

/-- Executes `#define name body` for the name read by `get` and written by `set`. -/
def Outcome.define {β : Type} [DecidableEq β] (o : Outcome) (name : String)
    (get : Env → Option β) (set : Env → β → Env) (mk : β → Directive) (body : β) : Outcome :=
  match get o.env with
  | none =>
    { o with env := set o.env body, defines := o.defines ++ [⟨mk body, false⟩] }
  | some old =>
    if old = body then
      { o with defines := o.defines ++ [⟨mk body, true⟩] }
    else
      { o with env := set o.env body, defines := o.defines ++ [⟨mk body, true⟩],
               diagnostics := o.diagnostics ++ [.redefined name] }

/-- `#define VK_DEFINE_HANDLE(object) body` -/
def Outcome.define_VK_DEFINE_HANDLE (o : Outcome) (body : HandleBody) : Outcome :=
  o.define "VK_DEFINE_HANDLE" Env.VK_DEFINE_HANDLE
    (fun e b => { e with VK_DEFINE_HANDLE := some b }) Directive.defHandle body

/-- `#define VK_USE_64_BIT_PTR_DEFINES value` -/
def Outcome.define_VK_USE_64_BIT_PTR_DEFINES (o : Outcome) (value : Int) : Outcome :=
  o.define "VK_USE_64_BIT_PTR_DEFINES" Env.VK_USE_64_BIT_PTR_DEFINES
    (fun e v => { e with VK_USE_64_BIT_PTR_DEFINES := some v }) Directive.defPtrDefines value

/-- `#define VK_NULL_HANDLE body` -/
def Outcome.define_VK_NULL_HANDLE (o : Outcome) (body : NullBody) : Outcome :=
  o.define "VK_NULL_HANDLE" Env.VK_NULL_HANDLE
    (fun e b => { e with VK_NULL_HANDLE := some b }) Directive.defNull body

/-- `#define VK_DEFINE_NON_DISPATCHABLE_HANDLE(object) body` -/
def Outcome.define_VK_DEFINE_NON_DISPATCHABLE_HANDLE (o : Outcome) (body : HandleBody) :
    Outcome :=
  o.define "VK_DEFINE_NON_DISPATCHABLE_HANDLE" Env.VK_DEFINE_NON_DISPATCHABLE_HANDLE
    (fun e b => { e with VK_DEFINE_NON_DISPATCHABLE_HANDLE := some b })
    Directive.defNonDispatchable body

/-- The type a replacement list declares for `object`; `object##_T` pastes the
argument and `_T` into one struct tag. -/
def HandleBody.typeFor : HandleBody → String → CType
  | .structPtr, object => .structPtr (object ++ "_T")
  | .uint64, _ => .uint64_t

/-- Whether a typedef may be repeated with the same type: C++, or C from C11. -/
def redeclarationAllowed (env : Env) : Bool :=
  env.__cplusplus.isSome || decide (env.__STDC_VERSION__.getD 0 ≥ 201112)

/-- The type a written type denotes: a typedef name stands for its type. -/
def resolve (typedefs : List (String × CType)) : CType → Option CType
  | .named n => typedefs.lookup n
  | t => some t

/-- Processes `typedef ty name;`. -/
def Outcome.typedef (o : Outcome) (ty : CType) (name : String) : Outcome :=
  let o := { o with declared := o.declared ++ [(name, ty)] }
  match resolve o.scope.typedefs ty with
  | none => { o with diagnostics := o.diagnostics ++ [.unknownType name] }
  | some t =>
    match o.scope.typedefs.lookup name with
    | none => { o with scope := { o.scope with typedefs := o.scope.typedefs ++ [(name, t)] } }
    | some old =>
      if old = t then
        if redeclarationAllowed o.env then o
        else { o with diagnostics := o.diagnostics ++ [.typedefRedeclared name] }
      else { o with diagnostics := o.diagnostics ++ [.typedefConflict name] }

/-- Processes `struct tag { members }` (the definition of the struct type). -/
def Outcome.structDef (o : Outcome) (tag : String) (members : List (String × CType)) :
    Outcome :=
  let o := { o with structsDefined := o.structsDefined ++ [tag] }
  if (o.scope.structs.lookup tag).isSome then
    { o with diagnostics := o.diagnostics ++ [.structRedefinition tag] }
  else
    { o with scope := { o.scope with structs := o.scope.structs ++ [(tag, members)] } }

/-- Expands `VK_DEFINE_HANDLE(object)` and processes the declaration. -/
def Outcome.VK_DEFINE_HANDLE (o : Outcome) (object : String) : Outcome :=
  match o.env.VK_DEFINE_HANDLE with
  | some body => o.typedef (body.typeFor object) object
  | none => { o with diagnostics := o.diagnostics ++ [.notDefined "VK_DEFINE_HANDLE"] }

/-- Expands `VK_DEFINE_NON_DISPATCHABLE_HANDLE(object)` and processes the declaration. -/
def Outcome.VK_DEFINE_NON_DISPATCHABLE_HANDLE (o : Outcome) (object : String) : Outcome :=
  match o.env.VK_DEFINE_NON_DISPATCHABLE_HANDLE with
  | some body => o.typedef (body.typeFor object) object
  | none =>
    { o with diagnostics := o.diagnostics ++ [.notDefined "VK_DEFINE_NON_DISPATCHABLE_HANDLE"] }

/-- The file-level declarations of the header, as written. -/
inductive Decl where
  /-- `VK_DEFINE_HANDLE(object)` -/
  | VK_DEFINE_HANDLE (object : String)
  /-- `VK_DEFINE_NON_DISPATCHABLE_HANDLE(object)` -/
  | VK_DEFINE_NON_DISPATCHABLE_HANDLE (object : String)
  /-- `typedef ty name;` -/
  | typedef (ty : CType) (name : String)
  /-- `struct tag { members }` -/
  | structDef (tag : String) (members : List (String × CType))
  deriving DecidableEq, Repr

/-- Processes one declaration. -/
def Outcome.declare (o : Outcome) : Decl → Outcome
  | .VK_DEFINE_HANDLE object => o.VK_DEFINE_HANDLE object
  | .VK_DEFINE_NON_DISPATCHABLE_HANDLE object => o.VK_DEFINE_NON_DISPATCHABLE_HANDLE object
  | .typedef ty name => o.typedef ty name
  | .structDef tag members => o.structDef tag members

/-! ## The header, block by block -/

/-- Line 3: `#define VK_DEFINE_HANDLE(object) typedef struct object##_T* object;` -/
def line3 (o : Outcome) : Outcome :=
  o.define_VK_DEFINE_HANDLE .structPtr

/-- The condition of the `#if` on line 6. -/
def line6 (s : TargetSignals) : Bool :=
  s.__LP64__ || s._WIN64 || (s.__x86_64__ && !s.__ILP32__) || s._M_X64 || s.__ia64
    || s._M_IA64 || s.__aarch64__ || s.__powerpc64__

/-- Lines 5-11: the detection of `VK_USE_64_BIT_PTR_DEFINES`. -/
def lines5to11 (o : Outcome) : Outcome :=
  if o.env.VK_USE_64_BIT_PTR_DEFINES.isNone then
    if line6 o.env.signals then
      o.define_VK_USE_64_BIT_PTR_DEFINES 1
    else
      o.define_VK_USE_64_BIT_PTR_DEFINES 0
  else o

/-- The condition `(VK_USE_64_BIT_PTR_DEFINES==1)` of lines 14 and 30. -/
def ptrDefinesIsOne (env : Env) : Bool :=
  env.VK_USE_64_BIT_PTR_DEFINES.getD 0 == 1

/-- The condition of the `#if` on line 15. -/
def line15 (env : Env) : Bool :=
  (env.__cplusplus.isSome && decide (env.__cplusplus.getD 0 ≥ 201103))
    || (env._MSVC_LANG.isSome && decide (env._MSVC_LANG.getD 0 ≥ 201103))

/-- Lines 13-23: `VK_NULL_HANDLE`, under the guard on
`VK_DEFINE_NON_DISPATCHABLE_HANDLE`. -/
def lines13to23 (o : Outcome) : Outcome :=
  if o.env.VK_DEFINE_NON_DISPATCHABLE_HANDLE.isNone then
    if ptrDefinesIsOne o.env then
      if line15 o.env then
        o.define_VK_NULL_HANDLE .nullptr
      else
        o.define_VK_NULL_HANDLE .voidPtrZero
    else
      o.define_VK_NULL_HANDLE .zeroULL
  else o

/-- Lines 24-26: the fallback `VK_NULL_HANDLE`. -/
def lines24to26 (o : Outcome) : Outcome :=
  if o.env.VK_NULL_HANDLE.isNone then
    o.define_VK_NULL_HANDLE .zero
  else o

/-- Lines 29-35: `VK_DEFINE_NON_DISPATCHABLE_HANDLE`. -/
def lines29to35 (o : Outcome) : Outcome :=
  if o.env.VK_DEFINE_NON_DISPATCHABLE_HANDLE.isNone then
    if ptrDefinesIsOne o.env then
      o.define_VK_DEFINE_NON_DISPATCHABLE_HANDLE .structPtr
    else
      o.define_VK_DEFINE_NON_DISPATCHABLE_HANDLE .uint64
  else o

/-- Lines 37-43: the seven handle declarations. -/
def lines37to43 : List Decl :=
  [.VK_DEFINE_NON_DISPATCHABLE_HANDLE "VkBuffer",
   .VK_DEFINE_NON_DISPATCHABLE_HANDLE "VkImage",
   .VK_DEFINE_HANDLE "VkInstance",
   .VK_DEFINE_HANDLE "VkPhysicalDevice",
   .VK_DEFINE_HANDLE "VkDevice",
   .VK_DEFINE_HANDLE "VkCommandBuffer",
   .VK_DEFINE_NON_DISPATCHABLE_HANDLE "VkImageView"]

/-- Lines 45-48: `VkFormat`, `VkFlags`, `VkImageAspectFlags`. -/
def lines45to48 : List Decl :=
  [.typedef .uint32_t "VkFormat",
   .typedef .uint32_t "VkFlags",
   .typedef (.named "VkFlags") "VkImageAspectFlags"]

/-- The members of `struct VkImageSubresourceRange` as written on lines 51-55. -/
def VkImageSubresourceRange_members : List (String × CType) :=
  [("aspectMask", .named "VkImageAspectFlags"), ("baseMipLevel", .uint32_t),
   ("levelCount", .uint32_t), ("baseArrayLayer", .uint32_t), ("layerCount", .uint32_t)]

/-- Lines 50-56: the struct definition and the typedef of the same name. -/
def lines50to56 : List Decl :=
  [.structDef "VkImageSubresourceRange" VkImageSubresourceRange_members,
   .typedef (.struct "VkImageSubresourceRange") "VkImageSubresourceRange"]

/-- Lines 3-35: the preprocessor part of the header. -/
def definitions (o : Outcome) : Outcome :=
  lines29to35 (lines24to26 (lines13to23 (lines5to11 (line3 o))))

/-- Lines 37-56: the declarations of the header. -/
def declarations (o : Outcome) : Outcome :=
  (lines37to43 ++ lines45to48 ++ lines50to56).foldl Outcome.declare o

/-- Processes the header once, in a translation unit where the preprocessor
knows `env` and the declarations `scope` are visible. -/
def processHeader (env : Env) (scope : Scope) : Outcome :=
  declarations (definitions (Outcome.start env scope))

/-- Processes the header a second time, in the translation unit as the first
pass left it. -/
def processTwice (env : Env) (scope : Scope) : Outcome :=
  processHeader (processHeader env scope).env (processHeader env scope).scope

/-! ## Values and sizes -/

/-- The value of a C expression of the header: an integer, or a pointer given
by its address. -/
inductive CValue where
  | int (n : Nat)
  | pointer (address : Nat)
  deriving DecidableEq, Repr

/-- The number read when the value is taken as an integer or as an address. -/
def CValue.toNat : CValue → Nat
  | .int n => n
  | .pointer a => a

/-- The value of each replacement list the header gives `VK_NULL_HANDLE`:
`nullptr` is the null pointer, `((void*)0)` the integer constant `0` converted
to a pointer, `0ULL` the constant `0` as a 64-bit unsigned integer, `0` the
constant `0`. A replacement list given from outside has no value here. -/
def NullBody.value : NullBody → Option CValue
  | .nullptr => some (.pointer 0)
  | .voidPtrZero => some (.pointer (CValue.int 0).toNat)
  | .zeroULL => some (.int (0 % 2 ^ 64))
  | .zero => some (.int 0)
  | .other _ => none

/-- Whether a replacement list of `VK_NULL_HANDLE` is a pointer expression. -/
def NullBody.isPointer : NullBody → Bool
  | .nullptr => true
  | .voidPtrZero => true
  | _ => false

/-- Whether a type is a pointer type. -/
def CType.isPointer : CType → Bool
  | .structPtr _ => true
  | _ => false

/-- What the header leaves to the target: the size and alignment of a data
pointer and the alignment of `uint64_t`, in bytes of 8 bits. -/
structure TargetABI where
  pointerSize : Nat
  pointerAlign : Nat
  uint64Align : Nat
  deriving DecidableEq, Repr

/-- Size in bytes of the types a handle can have: `sizeof`. -/
def CType.sizeOf (abi : TargetABI) : CType → Option Nat
  | .uint64_t => some 8
  | .uint32_t => some 4
  | .structPtr _ => some abi.pointerSize
  | _ => none

/-- Alignment in bytes of the types a handle can have: `alignof`. -/
def CType.alignOf (abi : TargetABI) : CType → Option Nat
  | .uint64_t => some abi.uint64Align
  | .structPtr _ => some abi.pointerAlign
  | _ => none

/-- The names declared with `VK_DEFINE_NON_DISPATCHABLE_HANDLE` (lines 37, 38, 43). -/
def nonDispatchableHandles : List String := ["VkBuffer", "VkImage", "VkImageView"]

/-- The names declared with `VK_DEFINE_HANDLE` (lines 39-42). -/
def dispatchableHandles : List String :=
  ["VkInstance", "VkPhysicalDevice", "VkDevice", "VkCommandBuffer"]

/-! ## Lines 3-35 in closed form

The functions below say in one expression each what the blocks above compute;
`definitions_eq` proves that they do. -/

/-- The value of `VK_USE_64_BIT_PTR_DEFINES` after line 11. -/
def ptrDefinesAfter (env : Env) : Int :=
  env.VK_USE_64_BIT_PTR_DEFINES.getD (if line6 env.signals then 1 else 0)

/-- The replacement list lines 14-22 give `VK_NULL_HANDLE` when they are reached. -/
def chosenNull (env : Env) : NullBody :=
  if ptrDefinesAfter env = 1 then (if line15 env then .nullptr else .voidPtrZero) else .zeroULL

/-- The replacement list of `VK_NULL_HANDLE` after line 26. -/
def nullAfter (env : Env) : NullBody :=
  if env.VK_DEFINE_NON_DISPATCHABLE_HANDLE.isNone then chosenNull env
  else env.VK_NULL_HANDLE.getD .zero

/-- The replacement list of `VK_DEFINE_NON_DISPATCHABLE_HANDLE` after line 35. -/
def nonDispatchableAfter (env : Env) : HandleBody :=
  env.VK_DEFINE_NON_DISPATCHABLE_HANDLE.getD
    (if ptrDefinesAfter env = 1 then .structPtr else .uint64)

/-- The `#define` directives that lines 3-35 execute, in order. -/
def definesOf (env : Env) : List DefineEvent :=
  [⟨.defHandle .structPtr, env.VK_DEFINE_HANDLE.isSome⟩]
  ++ (if env.VK_USE_64_BIT_PTR_DEFINES.isNone then
        [⟨.defPtrDefines (ptrDefinesAfter env), false⟩] else [])
  ++ (if env.VK_DEFINE_NON_DISPATCHABLE_HANDLE.isNone then
        [⟨.defNull (chosenNull env), env.VK_NULL_HANDLE.isSome⟩] else [])
  ++ (if env.VK_DEFINE_NON_DISPATCHABLE_HANDLE.isSome ∧ env.VK_NULL_HANDLE.isNone then
        [⟨.defNull .zero, false⟩] else [])
  ++ (if env.VK_DEFINE_NON_DISPATCHABLE_HANDLE.isNone then
        [⟨.defNonDispatchable (nonDispatchableAfter env), false⟩] else [])

/-- The diagnostics owed for lines 3-35. -/
def definitionDiagnostics (env : Env) : List Diagnostic :=
  (if env.VK_DEFINE_HANDLE = none ∨ env.VK_DEFINE_HANDLE = some .structPtr then []
   else [.redefined "VK_DEFINE_HANDLE"])
  ++ (if env.VK_DEFINE_NON_DISPATCHABLE_HANDLE.isNone ∧ env.VK_NULL_HANDLE.isSome
        ∧ env.VK_NULL_HANDLE ≠ some (chosenNull env) then [.redefined "VK_NULL_HANDLE"]
      else [])

/-! ## The specification's list of targets -/

/-- The targets for which the specification selects the pointer representation:
64-bit long-pointer mode, 64-bit Windows, 64-bit x86 without the 32-bit-pointer
ABI variant (`__x86_64__` without `__ILP32__`, or the Microsoft name `_M_X64`),
64-bit Itanium (`__ia64` or the Microsoft name `_M_IA64`), 64-bit ARM, 64-bit
PowerPC. -/
def spec_pointerTarget (s : TargetSignals) : Prop :=
  s.__LP64__ = true
  ∨ s._WIN64 = true
  ∨ ((s.__x86_64__ = true ∧ s.__ILP32__ = false) ∨ s._M_X64 = true)
  ∨ (s.__ia64 = true ∨ s._M_IA64 = true)
  ∨ s.__aarch64__ = true
  ∨ s.__powerpc64__ = true

instance (s : TargetSignals) : Decidable (spec_pointerTarget s) := by
  unfold spec_pointerTarget; infer_instance

/-! ## Notions used in the proofs -/

/-- Whether a directive is a `#define VK_NULL_HANDLE`. -/
def Directive.isDefNull : Directive → Bool
  | .defNull _ => true
  | _ => false

/-- A declaration is in force in a scope: what it declares is in scope with the
type it gives, so that processing it again adds nothing. -/
def Agrees (env : Env) (sc : Scope) : Decl → Prop
  | .VK_DEFINE_HANDLE object =>
    ∃ b, env.VK_DEFINE_HANDLE = some b ∧ sc.typedefs.lookup object = some (b.typeFor object)
  | .VK_DEFINE_NON_DISPATCHABLE_HANDLE object =>
    ∃ b, env.VK_DEFINE_NON_DISPATCHABLE_HANDLE = some b
      ∧ sc.typedefs.lookup object = some (b.typeFor object)
  | .typedef ty name =>
    ∃ t, resolve sc.typedefs ty = some t ∧ sc.typedefs.lookup name = some t
  | .structDef tag _ => (sc.structs.lookup tag).isSome = true

/-- Every declaration in scope `sc` is in scope `sc2` with the same meaning. -/
def Scope.le (sc sc2 : Scope) : Prop :=
  (∀ n t, sc.typedefs.lookup n = some t → sc2.typedefs.lookup n = some t)
  ∧ (∀ tag, (sc.structs.lookup tag).isSome = true → (sc2.structs.lookup tag).isSome = true)

/-- The diagnostic owed when a declaration that is in force is processed again. -/
def repeatDiagnostics (env : Env) : Decl → List Diagnostic
  | .VK_DEFINE_HANDLE object =>
    if redeclarationAllowed env then [] else [.typedefRedeclared object]
  | .VK_DEFINE_NON_DISPATCHABLE_HANDLE object =>
    if redeclarationAllowed env then [] else [.typedefRedeclared object]
  | .typedef _ name => if redeclarationAllowed env then [] else [.typedefRedeclared name]
  | .structDef tag _ => [.structRedefinition tag]

/-! ## Configurations used as examples -/

/-- A 32-bit x86 build: none of the names of line 6 is defined. (A compiler that
defines `__ILP32__` there gets the same result: line 6 tests it only next to
`__x86_64__`.) -/
def signals_i386 : TargetSignals :=
  { __LP64__ := false, _WIN64 := false, __x86_64__ := false, __ILP32__ := false,
    _M_X64 := false, __ia64 := false, _M_IA64 := false, __aarch64__ := false,
    __powerpc64__ := false }

/-- A 64-bit Linux x86 build: `__LP64__` and `__x86_64__`. -/
def signals_x86_64 : TargetSignals :=
  { signals_i386 with __LP64__ := true, __x86_64__ := true }

/-- A 64-bit ARM build: `__LP64__` and `__aarch64__`. -/
def signals_aarch64 : TargetSignals :=
  { signals_i386 with __LP64__ := true, __aarch64__ := true }

/-- A configuration with nothing predefined but the target signals and the
language dialect. -/
def Env.plain (signals : TargetSignals) (cplusplus stdc : Option Int) : Env :=
  { signals := signals, __cplusplus := cplusplus, _MSVC_LANG := none,
    __STDC_VERSION__ := stdc, VK_DEFINE_HANDLE := none, VK_USE_64_BIT_PTR_DEFINES := none,
    VK_NULL_HANDLE := none, VK_DEFINE_NON_DISPATCHABLE_HANDLE := none }

/-- A translation unit with no declaration yet. -/
def Scope.empty : Scope := { typedefs := [], structs := [] }

/-- A 64-bit C++17 build in which `VK_DEFINE_NON_DISPATCHABLE_HANDLE` is given
from outside, with the replacement list of line 31. -/
def env_x86_64_handlePredefined : Env :=
  { Env.plain signals_x86_64 (some 201703) none with
    VK_DEFINE_NON_DISPATCHABLE_HANDLE := some .structPtr }

/-- A 32-bit C11 build in which `VK_NULL_HANDLE` is given from outside as `0`. -/
def env_i386_nullPredefined : Env :=
  { Env.plain signals_i386 none (some 201112) with VK_NULL_HANDLE := some .zero }

/-- A 32-bit x86 build in which the pointer representation is forced with
`-DVK_USE_64_BIT_PTR_DEFINES=1`. -/
def env_i386_override : Env :=
  { Env.plain signals_i386 none none with VK_USE_64_BIT_PTR_DEFINES := some 1 }

/-- A 32-bit x86 build with the override set to 2, a value other than 0 and 1. -/
def env_i386_override2 : Env :=
  { Env.plain signals_i386 none none with VK_USE_64_BIT_PTR_DEFINES := some 2 }

/-- The 32-bit x86 System V ABI: 4-byte pointers, `uint64_t` aligned to 4 bytes. -/
def abi_i386 : TargetABI := { pointerSize := 4, pointerAlign := 4, uint64Align := 4 }

/-- An LP64 ABI: 8-byte pointers, `uint64_t` aligned to 8 bytes. -/
def abi_lp64 : TargetABI := { pointerSize := 8, pointerAlign := 8, uint64Align := 8 }

/-! ## Structural lemmas -/

section Structural

variable {β : Type} [DecidableEq β]

@[simp] theorem define_scope (o : Outcome) (name : String) (get : Env → Option β)
    (set : Env → β → Env) (mk : β → Directive) (body : β) :
    (o.define name get set mk body).scope = o.scope := by
  unfold Outcome.define; split
  · rfl
  · split <;> rfl

@[simp] theorem define_declared (o : Outcome) (name : String) (get : Env → Option β)
    (set : Env → β → Env) (mk : β → Directive) (body : β) :
    (o.define name get set mk body).declared = o.declared := by
  unfold Outcome.define; split
  · rfl
  · split <;> rfl

@[simp] theorem define_structsDefined (o : Outcome) (name : String) (get : Env → Option β)
    (set : Env → β → Env) (mk : β → Directive) (body : β) :
    (o.define name get set mk body).structsDefined = o.structsDefined := by
  unfold Outcome.define; split
  · rfl
  · split <;> rfl

@[simp] theorem typedef_env (o : Outcome) (ty : CType) (name : String) :
    (o.typedef ty name).env = o.env := by
  unfold Outcome.typedef; dsimp only; split
  · rfl
  · split
    · rfl
    · split
      · split <;> rfl
      · rfl

@[simp] theorem typedef_defines (o : Outcome) (ty : CType) (name : String) :
    (o.typedef ty name).defines = o.defines := by
  unfold Outcome.typedef; dsimp only; split
  · rfl
  · split
    · rfl
    · split
      · split <;> rfl
      · rfl

@[simp] theorem typedef_declared (o : Outcome) (ty : CType) (name : String) :
    (o.typedef ty name).declared = o.declared ++ [(name, ty)] := by
  unfold Outcome.typedef; dsimp only; split
  · rfl
  · split
    · rfl
    · split
      · split <;> rfl
      · rfl

@[simp] theorem typedef_structsDefined (o : Outcome) (ty : CType) (name : String) :
    (o.typedef ty name).structsDefined = o.structsDefined := by
  unfold Outcome.typedef; dsimp only; split
  · rfl
  · split
    · rfl
    · split
      · split <;> rfl
      · rfl

@[simp] theorem structDef_env (o : Outcome) (tag : String) (ms : List (String × CType)) :
    (o.structDef tag ms).env = o.env := by
  unfold Outcome.structDef; dsimp only; split <;> rfl

@[simp] theorem structDef_defines (o : Outcome) (tag : String) (ms : List (String × CType)) :
    (o.structDef tag ms).defines = o.defines := by
  unfold Outcome.structDef; dsimp only; split <;> rfl

@[simp] theorem structDef_declared (o : Outcome) (tag : String) (ms : List (String × CType)) :
    (o.structDef tag ms).declared = o.declared := by
  unfold Outcome.structDef; dsimp only; split <;> rfl

@[simp] theorem structDef_structsDefined (o : Outcome) (tag : String)
    (ms : List (String × CType)) :
    (o.structDef tag ms).structsDefined = o.structsDefined ++ [tag] := by
  unfold Outcome.structDef; dsimp only; split <;> rfl

@[simp] theorem VK_DEFINE_HANDLE_env (o : Outcome) (object : String) :
    (o.VK_DEFINE_HANDLE object).env = o.env := by
  unfold Outcome.VK_DEFINE_HANDLE; split
  · simp
  · rfl

@[simp] theorem VK_DEFINE_HANDLE_defines (o : Outcome) (object : String) :
    (o.VK_DEFINE_HANDLE object).defines = o.defines := by
  unfold Outcome.VK_DEFINE_HANDLE; split
  · simp
  · rfl

@[simp] theorem VK_DEFINE_HANDLE_structsDefined (o : Outcome) (object : String) :
    (o.VK_DEFINE_HANDLE object).structsDefined = o.structsDefined := by
  unfold Outcome.VK_DEFINE_HANDLE; split
  · simp
  · rfl

theorem VK_DEFINE_HANDLE_declared (o : Outcome) (object : String) (body : HandleBody)
    (h : o.env.VK_DEFINE_HANDLE = some body) :
    (o.VK_DEFINE_HANDLE object).declared = o.declared ++ [(object, body.typeFor object)] := by
  unfold Outcome.VK_DEFINE_HANDLE; rw [h]; simp

@[simp] theorem VK_DEFINE_NON_DISPATCHABLE_HANDLE_env (o : Outcome) (object : String) :
    (o.VK_DEFINE_NON_DISPATCHABLE_HANDLE object).env = o.env := by
  unfold Outcome.VK_DEFINE_NON_DISPATCHABLE_HANDLE; split
  · simp
  · rfl

@[simp] theorem VK_DEFINE_NON_DISPATCHABLE_HANDLE_defines (o : Outcome) (object : String) :
    (o.VK_DEFINE_NON_DISPATCHABLE_HANDLE object).defines = o.defines := by
  unfold Outcome.VK_DEFINE_NON_DISPATCHABLE_HANDLE; split
  · simp
  · rfl

@[simp] theorem VK_DEFINE_NON_DISPATCHABLE_HANDLE_structsDefined (o : Outcome)
    (object : String) :
    (o.VK_DEFINE_NON_DISPATCHABLE_HANDLE object).structsDefined = o.structsDefined := by
  unfold Outcome.VK_DEFINE_NON_DISPATCHABLE_HANDLE; split
  · simp
  · rfl

theorem VK_DEFINE_NON_DISPATCHABLE_HANDLE_declared (o : Outcome) (object : String)
    (body : HandleBody) (h : o.env.VK_DEFINE_NON_DISPATCHABLE_HANDLE = some body) :
    (o.VK_DEFINE_NON_DISPATCHABLE_HANDLE object).declared
      = o.declared ++ [(object, body.typeFor object)] := by
  unfold Outcome.VK_DEFINE_NON_DISPATCHABLE_HANDLE; rw [h]; simp

@[simp] theorem declarations_env (o : Outcome) : (declarations o).env = o.env := by
  simp [declarations, lines50to56, lines45to48, lines37to43, Outcome.declare]

@[simp] theorem declarations_defines (o : Outcome) :
    (declarations o).defines = o.defines := by
  simp [declarations, lines50to56, lines45to48, lines37to43, Outcome.declare]

@[simp] theorem declarations_structsDefined (o : Outcome) :
    (declarations o).structsDefined = o.structsDefined ++ ["VkImageSubresourceRange"] := by
  simp [declarations, lines50to56, lines45to48, lines37to43, Outcome.declare]

/-- The typedefs the header issues, given the two handle-defining names in
force on line 37. -/
theorem declarations_declared (o : Outcome) (hb nb : HandleBody)
    (hh : o.env.VK_DEFINE_HANDLE = some hb)
    (hn : o.env.VK_DEFINE_NON_DISPATCHABLE_HANDLE = some nb) :
    (declarations o).declared = o.declared ++
      [("VkBuffer", nb.typeFor "VkBuffer"), ("VkImage", nb.typeFor "VkImage"),
       ("VkInstance", hb.typeFor "VkInstance"),
       ("VkPhysicalDevice", hb.typeFor "VkPhysicalDevice"),
       ("VkDevice", hb.typeFor "VkDevice"),
       ("VkCommandBuffer", hb.typeFor "VkCommandBuffer"),
       ("VkImageView", nb.typeFor "VkImageView"),
       ("VkFormat", .uint32_t), ("VkFlags", .uint32_t),
       ("VkImageAspectFlags", .named "VkFlags"),
       ("VkImageSubresourceRange", .struct "VkImageSubresourceRange")] := by
  simp [declarations, lines50to56, lines45to48, lines37to43, Outcome.declare,
    VK_DEFINE_HANDLE_declared _ _ hb, VK_DEFINE_NON_DISPATCHABLE_HANDLE_declared _ _ nb, hh, hn]

end Structural

section Defines

theorem define_VK_DEFINE_HANDLE_eq (o : Outcome) (b : HandleBody) :
    o.define_VK_DEFINE_HANDLE b =
      { o with
        env := { o.env with VK_DEFINE_HANDLE := some b }
        defines := o.defines ++ [⟨.defHandle b, o.env.VK_DEFINE_HANDLE.isSome⟩]
        diagnostics := o.diagnostics ++
          (if o.env.VK_DEFINE_HANDLE = none ∨ o.env.VK_DEFINE_HANDLE = some b then []
           else [.redefined "VK_DEFINE_HANDLE"]) } := by
  unfold Outcome.define_VK_DEFINE_HANDLE Outcome.define
  cases h : o.env.VK_DEFINE_HANDLE with
  | none => simp
  | some old =>
    by_cases hb : old = b
    · subst hb; simp [← h]; simp [h]
    · simp [hb]

theorem define_VK_USE_64_BIT_PTR_DEFINES_eq (o : Outcome) (v : Int) :
    o.define_VK_USE_64_BIT_PTR_DEFINES v =
      { o with
        env := { o.env with VK_USE_64_BIT_PTR_DEFINES := some v }
        defines := o.defines ++ [⟨.defPtrDefines v, o.env.VK_USE_64_BIT_PTR_DEFINES.isSome⟩]
        diagnostics := o.diagnostics ++
          (if o.env.VK_USE_64_BIT_PTR_DEFINES = none ∨ o.env.VK_USE_64_BIT_PTR_DEFINES = some v
           then [] else [.redefined "VK_USE_64_BIT_PTR_DEFINES"]) } := by
  unfold Outcome.define_VK_USE_64_BIT_PTR_DEFINES Outcome.define
  cases h : o.env.VK_USE_64_BIT_PTR_DEFINES with
  | none => simp
  | some old =>
    by_cases hb : old = v
    · subst hb; simp [← h]; simp [h]
    · simp [hb]

theorem define_VK_NULL_HANDLE_eq (o : Outcome) (b : NullBody) :
    o.define_VK_NULL_HANDLE b =
      { o with
        env := { o.env with VK_NULL_HANDLE := some b }
        defines := o.defines ++ [⟨.defNull b, o.env.VK_NULL_HANDLE.isSome⟩]
        diagnostics := o.diagnostics ++
          (if o.env.VK_NULL_HANDLE = none ∨ o.env.VK_NULL_HANDLE = some b then []
           else [.redefined "VK_NULL_HANDLE"]) } := by
  unfold Outcome.define_VK_NULL_HANDLE Outcome.define
  cases h : o.env.VK_NULL_HANDLE with
  | none => simp
  | some old =>
    by_cases hb : old = b
    · subst hb; simp [← h]; simp [h]
    · simp [hb]

theorem define_VK_DEFINE_NON_DISPATCHABLE_HANDLE_eq (o : Outcome) (b : HandleBody) :
    o.define_VK_DEFINE_NON_DISPATCHABLE_HANDLE b =
      { o with
        env := { o.env with VK_DEFINE_NON_DISPATCHABLE_HANDLE := some b }
        defines := o.defines ++
          [⟨.defNonDispatchable b, o.env.VK_DEFINE_NON_DISPATCHABLE_HANDLE.isSome⟩]
        diagnostics := o.diagnostics ++
          (if o.env.VK_DEFINE_NON_DISPATCHABLE_HANDLE = none
              ∨ o.env.VK_DEFINE_NON_DISPATCHABLE_HANDLE = some b then []
           else [.redefined "VK_DEFINE_NON_DISPATCHABLE_HANDLE"]) } := by
  unfold Outcome.define_VK_DEFINE_NON_DISPATCHABLE_HANDLE Outcome.define
  cases h : o.env.VK_DEFINE_NON_DISPATCHABLE_HANDLE with
  | none => simp
  | some old =>
    by_cases hb : old = b
    · subst hb; simp [← h]; simp [h]
    · simp [hb]

end Defines


/-- Lines 3-35 compute the closed form. -/
theorem definitions_eq (o : Outcome) :
    definitions o =
      { o with
        env := { o.env with
          VK_DEFINE_HANDLE := some .structPtr
          VK_USE_64_BIT_PTR_DEFINES := some (ptrDefinesAfter o.env)
          VK_NULL_HANDLE := some (nullAfter o.env)
          VK_DEFINE_NON_DISPATCHABLE_HANDLE := some (nonDispatchableAfter o.env) }
        defines := o.defines ++ definesOf o.env
        diagnostics := o.diagnostics ++ definitionDiagnostics o.env } := by
  obtain ⟨⟨sig, cpp, msvc, stdc, dh, u64, nh, nd⟩, sc, df, dc, sd, dg⟩ := o
  obtain ⟨c15, h15⟩ : ∃ c15, ∀ a b c d, line15 ⟨sig, cpp, msvc, stdc, a, b, c, d⟩ = c15 :=
    ⟨line15 ⟨sig, cpp, msvc, stdc, none, none, none, none⟩, fun _ _ _ _ => rfl⟩
  rcases u64 with _ | v
  · cases c15 <;> cases hl : line6 sig <;> rcases nh with _ | nh <;> rcases nd with _ | nd <;>
    simp [definitions, lines29to35, lines24to26, lines13to23, lines5to11, line3,
      define_VK_DEFINE_HANDLE_eq, define_VK_USE_64_BIT_PTR_DEFINES_eq, define_VK_NULL_HANDLE_eq,
      define_VK_DEFINE_NON_DISPATCHABLE_HANDLE_eq, ptrDefinesIsOne, ptrDefinesAfter, chosenNull,
      nullAfter, nonDispatchableAfter, definesOf, definitionDiagnostics, h15, hl]
  · cases c15 <;> by_cases hv : v = 1 <;> rcases nh with _ | nh <;> rcases nd with _ | nd <;>
    simp [definitions, lines29to35, lines24to26, lines13to23, lines5to11, line3,
      define_VK_DEFINE_HANDLE_eq, define_VK_USE_64_BIT_PTR_DEFINES_eq, define_VK_NULL_HANDLE_eq,
      define_VK_DEFINE_NON_DISPATCHABLE_HANDLE_eq, ptrDefinesIsOne, ptrDefinesAfter, chosenNull,
      nullAfter, nonDispatchableAfter, definesOf, definitionDiagnostics, h15, hv]

section Header

theorem processHeader_env (env : Env) (scope : Scope) :
    (processHeader env scope).env =
      { env with
        VK_DEFINE_HANDLE := some .structPtr
        VK_USE_64_BIT_PTR_DEFINES := some (ptrDefinesAfter env)
        VK_NULL_HANDLE := some (nullAfter env)
        VK_DEFINE_NON_DISPATCHABLE_HANDLE := some (nonDispatchableAfter env) } := by
  simp [processHeader, definitions_eq, Outcome.start]

theorem processHeader_defines (env : Env) (scope : Scope) :
    (processHeader env scope).defines = definesOf env := by
  simp [processHeader, definitions_eq, Outcome.start]

theorem processHeader_declared (env : Env) (scope : Scope) :
    (processHeader env scope).declared =
      [("VkBuffer", (nonDispatchableAfter env).typeFor "VkBuffer"),
       ("VkImage", (nonDispatchableAfter env).typeFor "VkImage"),
       ("VkInstance", .structPtr "VkInstance_T"),
       ("VkPhysicalDevice", .structPtr "VkPhysicalDevice_T"),
       ("VkDevice", .structPtr "VkDevice_T"),
       ("VkCommandBuffer", .structPtr "VkCommandBuffer_T"),
       ("VkImageView", (nonDispatchableAfter env).typeFor "VkImageView"),
       ("VkFormat", .uint32_t), ("VkFlags", .uint32_t),
       ("VkImageAspectFlags", .named "VkFlags"),
       ("VkImageSubresourceRange", .struct "VkImageSubresourceRange")] := by
  unfold processHeader
  rw [declarations_declared _ .structPtr (nonDispatchableAfter env)]
  · simp [definitions_eq, Outcome.start, HandleBody.typeFor]
  · simp [definitions_eq]
  · simp [definitions_eq, Outcome.start]

theorem line6_iff (s : TargetSignals) :
    line6 s = true ↔
      (s.__LP64__ = true ∨ s._WIN64 = true
        ∨ ((s.__x86_64__ = true ∧ s.__ILP32__ = false) ∨ s._M_X64 = true)
        ∨ (s.__ia64 = true ∨ s._M_IA64 = true)
        ∨ s.__aarch64__ = true ∨ s.__powerpc64__ = true) := by
  simp [line6]
  tauto

end Header

section Scopes

theorem Scope.le_refl (sc : Scope) : sc.le sc := ⟨fun _ _ h => h, fun _ h => h⟩

theorem Scope.le_trans {a b c : Scope} (h1 : a.le b) (h2 : b.le c) : a.le c :=
  ⟨fun n t h => h2.1 n t (h1.1 n t h), fun tag h => h2.2 tag (h1.2 tag h)⟩

theorem lookup_append_of_some {α : Type} (l : List (String × α)) (k : String) (v : α)
    (e : String × α) (h : l.lookup k = some v) : (l ++ [e]).lookup k = some v := by
  simp [List.lookup_append, h]

theorem lookup_append_self {α : Type} (l : List (String × α)) (k : String) (v : α)
    (h : l.lookup k = none) : (l ++ [(k, v)]).lookup k = some v := by
  simp [List.lookup_append, h]

theorem typedef_scope_le (o : Outcome) (ty : CType) (name : String) :
    o.scope.le (o.typedef ty name).scope := by
  unfold Outcome.typedef; dsimp only; split
  · exact Scope.le_refl _
  · split
    · exact ⟨fun n t h => lookup_append_of_some _ _ _ _ h, fun _ h => h⟩
    · split
      · split <;> exact Scope.le_refl _
      · exact Scope.le_refl _

theorem structDef_scope_le (o : Outcome) (tag : String) (ms : List (String × CType)) :
    o.scope.le (o.structDef tag ms).scope := by
  unfold Outcome.structDef; dsimp only; split
  · exact Scope.le_refl _
  · refine ⟨fun _ _ h => h, fun t h => ?_⟩
    obtain ⟨v, hv⟩ := Option.isSome_iff_exists.1 h
    simp [lookup_append_of_some _ _ _ _ hv]

theorem declare_scope_le (o : Outcome) (d : Decl) : o.scope.le (o.declare d).scope := by
  cases d with
  | VK_DEFINE_HANDLE object =>
    simp only [Outcome.declare, Outcome.VK_DEFINE_HANDLE]
    split
    · exact typedef_scope_le _ _ _
    · exact Scope.le_refl _
  | VK_DEFINE_NON_DISPATCHABLE_HANDLE object =>
    simp only [Outcome.declare, Outcome.VK_DEFINE_NON_DISPATCHABLE_HANDLE]
    split
    · exact typedef_scope_le _ _ _
    · exact Scope.le_refl _
  | typedef ty name => exact typedef_scope_le _ _ _
  | structDef tag ms => exact structDef_scope_le _ _ _

@[simp] theorem declare_env (o : Outcome) (d : Decl) : (o.declare d).env = o.env := by
  cases d <;> simp [Outcome.declare]

theorem foldl_declare_env (ds : List Decl) (o : Outcome) :
    (ds.foldl Outcome.declare o).env = o.env := by
  induction ds generalizing o with
  | nil => rfl
  | cons d ds ih => simp [List.foldl, ih]

theorem foldl_declare_scope_le (ds : List Decl) (o : Outcome) :
    o.scope.le (ds.foldl Outcome.declare o).scope := by
  induction ds generalizing o with
  | nil => exact Scope.le_refl _
  | cons d ds ih => exact Scope.le_trans (declare_scope_le o d) (ih _)

end Scopes

section Repeat

theorem resolve_mono {sc sc2 : Scope} (h : sc.le sc2) (ty t : CType)
    (hr : resolve sc.typedefs ty = some t) : resolve sc2.typedefs ty = some t := by
  cases ty <;> simp_all [resolve]
  exact h.1 _ _ hr

theorem agrees_mono {env : Env} {sc sc2 : Scope} (h : sc.le sc2) (d : Decl)
    (ha : Agrees env sc d) : Agrees env sc2 d := by
  cases d with
  | VK_DEFINE_HANDLE object =>
    obtain ⟨b, hb, hl⟩ := ha
    exact ⟨b, hb, h.1 _ _ hl⟩
  | VK_DEFINE_NON_DISPATCHABLE_HANDLE object =>
    obtain ⟨b, hb, hl⟩ := ha
    exact ⟨b, hb, h.1 _ _ hl⟩
  | typedef ty name =>
    obtain ⟨t, hr, hl⟩ := ha
    exact ⟨t, resolve_mono h _ _ hr, h.1 _ _ hl⟩
  | structDef tag ms => exact h.2 _ ha

theorem resolve_typeFor (tds : List (String × CType)) (b : HandleBody) (object : String) :
    resolve tds (b.typeFor object) = some (b.typeFor object) := by
  cases b <;> rfl

/-- A typedef that raises no diagnostic is in force afterwards. -/
theorem typedef_agrees (o : Outcome) (ty : CType) (name : String)
    (h : (o.typedef ty name).diagnostics = o.diagnostics) :
    ∃ t, resolve (o.typedef ty name).scope.typedefs ty = some t
      ∧ (o.typedef ty name).scope.typedefs.lookup name = some t := by
  have hle := typedef_scope_le o ty name
  revert h hle
  unfold Outcome.typedef; dsimp only
  cases hr : resolve o.scope.typedefs ty with
  | none => simp
  | some t =>
    cases hl : o.scope.typedefs.lookup name with
    | none =>
      intro _ hle
      exact ⟨t, resolve_mono hle _ _ hr, lookup_append_self _ _ _ hl⟩
    | some old =>
      by_cases ho : old = t
      · subst ho
        intro _ _
        refine ⟨old, ?_, ?_⟩ <;> (simp only [if_true]; split <;> assumption)
      · simp [ho]

/-- Processing again a typedef that is in force changes no scope. -/
theorem typedef_repeat (o : Outcome) (ty : CType) (name : String) (t : CType)
    (hr : resolve o.scope.typedefs ty = some t) (hl : o.scope.typedefs.lookup name = some t) :
    (o.typedef ty name).scope = o.scope
    ∧ (o.typedef ty name).diagnostics = o.diagnostics ++
        (if redeclarationAllowed o.env then [] else [.typedefRedeclared name]) := by
  unfold Outcome.typedef; dsimp only
  rw [hr, hl]; dsimp only
  rw [if_pos rfl]
  split <;> simp

theorem typedef_diagnostics (o : Outcome) (ty : CType) (name : String) :
    ∃ ds, (o.typedef ty name).diagnostics = o.diagnostics ++ ds := by
  unfold Outcome.typedef; dsimp only; split
  · exact ⟨_, rfl⟩
  · split
    · exact ⟨[], by simp⟩
    · split
      · split
        · exact ⟨[], by simp⟩
        · exact ⟨_, rfl⟩
      · exact ⟨_, rfl⟩

theorem declare_diagnostics (o : Outcome) (d : Decl) :
    ∃ ds, (o.declare d).diagnostics = o.diagnostics ++ ds := by
  cases d with
  | VK_DEFINE_HANDLE object =>
    simp only [Outcome.declare, Outcome.VK_DEFINE_HANDLE]
    split
    · exact typedef_diagnostics _ _ _
    · exact ⟨_, rfl⟩
  | VK_DEFINE_NON_DISPATCHABLE_HANDLE object =>
    simp only [Outcome.declare, Outcome.VK_DEFINE_NON_DISPATCHABLE_HANDLE]
    split
    · exact typedef_diagnostics _ _ _
    · exact ⟨_, rfl⟩
  | typedef ty name => exact typedef_diagnostics _ _ _
  | structDef tag ms =>
    simp only [Outcome.declare, Outcome.structDef]
    split
    · exact ⟨_, rfl⟩
    · exact ⟨[], by simp⟩

theorem foldl_declare_diagnostics (ds : List Decl) (o : Outcome) :
    ∃ l, (ds.foldl Outcome.declare o).diagnostics = o.diagnostics ++ l := by
  induction ds generalizing o with
  | nil => exact ⟨[], by simp⟩
  | cons d ds ih =>
    obtain ⟨l1, h1⟩ := declare_diagnostics o d
    obtain ⟨l2, h2⟩ := ih (o.declare d)
    exact ⟨l1 ++ l2, by simp [List.foldl, h2, h1]⟩

/-- A declaration that raises no diagnostic is in force afterwards. -/
theorem declare_agrees (o : Outcome) (d : Decl)
    (h : (o.declare d).diagnostics = o.diagnostics) : Agrees o.env (o.declare d).scope d := by
  cases d with
  | VK_DEFINE_HANDLE object =>
    simp only [Outcome.declare, Outcome.VK_DEFINE_HANDLE] at h ⊢
    cases hb : o.env.VK_DEFINE_HANDLE with
    | none => simp [hb] at h
    | some b =>
      simp only [hb] at h ⊢
      obtain ⟨t, hr, hl⟩ := typedef_agrees _ _ _ h
      rw [resolve_typeFor] at hr
      exact ⟨b, hb, by rw [hl, ← hr]⟩
  | VK_DEFINE_NON_DISPATCHABLE_HANDLE object =>
    simp only [Outcome.declare, Outcome.VK_DEFINE_NON_DISPATCHABLE_HANDLE] at h ⊢
    cases hb : o.env.VK_DEFINE_NON_DISPATCHABLE_HANDLE with
    | none => simp [hb] at h
    | some b =>
      simp only [hb] at h ⊢
      obtain ⟨t, hr, hl⟩ := typedef_agrees _ _ _ h
      rw [resolve_typeFor] at hr
      exact ⟨b, hb, by rw [hl, ← hr]⟩
  | typedef ty name => exact typedef_agrees _ _ _ h
  | structDef tag ms =>
    simp only [Outcome.declare, Outcome.structDef, Agrees] at h ⊢
    by_cases hs : (o.scope.structs.lookup tag).isSome = true
    · simp [hs] at h
    · simp only [hs, if_false]
      simp only [Bool.not_eq_true, Option.not_isSome, Option.isNone_iff_eq_none] at hs
      simp [lookup_append_self _ _ _ hs]

/-- When a list of declarations raises no diagnostic, each of them is in force
at the end. -/
theorem foldl_declare_agrees (ds : List Decl) (o : Outcome)
    (h : (ds.foldl Outcome.declare o).diagnostics = o.diagnostics) :
    ∀ d ∈ ds, Agrees o.env (ds.foldl Outcome.declare o).scope d := by
  induction ds generalizing o with
  | nil => simp
  | cons d ds ih =>
    obtain ⟨l1, h1⟩ := declare_diagnostics o d
    obtain ⟨l2, h2⟩ := foldl_declare_diagnostics ds (o.declare d)
    simp only [List.foldl] at h ⊢
    have e : l1 ++ l2 = [] := by
      have := h2.symm.trans h
      rw [h1, List.append_assoc] at this
      exact List.append_right_eq_self.1 this
    obtain ⟨e1, e2⟩ := List.append_eq_nil.1 e
    subst e1 e2
    simp only [List.append_nil] at h1 h2
    intro x hx
    rcases List.mem_cons.1 hx with rfl | hx
    · exact agrees_mono (foldl_declare_scope_le ds _) _ (declare_agrees o _ h1)
    · have := ih (o.declare d) h2 x hx
      rwa [declare_env] at this

/-- Processing again a declaration that is in force changes no scope. -/
theorem declare_repeat (o : Outcome) (d : Decl) (h : Agrees o.env o.scope d) :
    (o.declare d).scope = o.scope
    ∧ (o.declare d).diagnostics = o.diagnostics ++ repeatDiagnostics o.env d := by
  cases d with
  | VK_DEFINE_HANDLE object =>
    obtain ⟨b, hb, hl⟩ := h
    simp only [Outcome.declare, Outcome.VK_DEFINE_HANDLE, hb, repeatDiagnostics]
    exact typedef_repeat o _ _ _ (resolve_typeFor _ _ _) hl
  | VK_DEFINE_NON_DISPATCHABLE_HANDLE object =>
    obtain ⟨b, hb, hl⟩ := h
    simp only [Outcome.declare, Outcome.VK_DEFINE_NON_DISPATCHABLE_HANDLE, hb, repeatDiagnostics]
    exact typedef_repeat o _ _ _ (resolve_typeFor _ _ _) hl
  | typedef ty name =>
    obtain ⟨t, hr, hl⟩ := h
    exact typedef_repeat o _ _ _ hr hl
  | structDef tag ms =>
    simp only [Agrees] at h
    simp [Outcome.declare, Outcome.structDef, repeatDiagnostics, h]

/-- Processing again a list of declarations that are all in force changes no
scope and raises the diagnostics of `repeatDiagnostics`. -/
theorem foldl_declare_repeat (ds : List Decl) (o : Outcome)
    (h : ∀ d ∈ ds, Agrees o.env o.scope d) :
    (ds.foldl Outcome.declare o).scope = o.scope
    ∧ (ds.foldl Outcome.declare o).diagnostics
        = o.diagnostics ++ ds.flatMap (repeatDiagnostics o.env) := by
  induction ds generalizing o with
  | nil => simp
  | cons d ds ih =>
    obtain ⟨hs, hd⟩ := declare_repeat o d (h d (List.mem_cons_self _ _))
    have h2 : ∀ x ∈ ds, Agrees (o.declare d).env (o.declare d).scope x := by
      intro x hx
      rw [declare_env, hs]
      exact h x (List.mem_cons_of_mem _ hx)
    obtain ⟨is, id⟩ := ih (o.declare d) h2
    simp only [List.foldl]
    refine ⟨is.trans hs, ?_⟩
    rw [id, hd, declare_env]
    simp [List.flatMap_cons]

end Repeat

section SecondPass

/-- The preprocessor part of a second pass: only line 3 executes a `#define`,
with the replacement list already in force. -/
theorem definitions_second_pass (env : Env) (scope sc : Scope) :
    definitions (Outcome.start (processHeader env scope).env sc) =
      ⟨(processHeader env scope).env, sc, [⟨.defHandle .structPtr, true⟩], [], [], []⟩ := by
  rw [definitions_eq, processHeader_env]
  simp [Outcome.start, ptrDefinesAfter, nullAfter, nonDispatchableAfter, definesOf,
    definitionDiagnostics]

theorem processHeader_eq (env : Env) (scope : Scope) :
    processHeader env scope = (lines37to43 ++ lines45to48 ++ lines50to56).foldl
      Outcome.declare (definitions (Outcome.start env scope)) := by
  simp only [processHeader, declarations]

theorem foldl_declare_defines (ds : List Decl) (o : Outcome) :
    (ds.foldl Outcome.declare o).defines = o.defines := by
  induction ds generalizing o with
  | nil => rfl
  | cons d ds ih =>
    simp only [List.foldl, ih]
    cases d <;> simp [Outcome.declare]

theorem redeclarationAllowed_processHeader (env : Env) (scope : Scope) :
    redeclarationAllowed (processHeader env scope).env = redeclarationAllowed env := by
  rw [processHeader_env]; rfl

/-- After a first pass without diagnostics every declaration of the header is in force. -/
theorem processHeader_agrees (env : Env) (scope : Scope)
    (h : (processHeader env scope).diagnostics = []) :
    ∀ d ∈ lines37to43 ++ lines45to48 ++ lines50to56,
      Agrees (processHeader env scope).env (processHeader env scope).scope d := by
  rw [processHeader_eq] at h ⊢
  obtain ⟨l, hl⟩ := foldl_declare_diagnostics (lines37to43 ++ lines45to48 ++ lines50to56)
    (definitions (Outcome.start env scope))
  have h0 : ((lines37to43 ++ lines45to48 ++ lines50to56).foldl
      Outcome.declare (definitions (Outcome.start env scope))).diagnostics
      = (definitions (Outcome.start env scope)).diagnostics := by
    rw [h] at hl
    obtain ⟨e1, _⟩ := List.append_eq_nil.1 hl.symm
    rw [h, e1]
  rw [foldl_declare_env]
  exact foldl_declare_agrees _ _ h0

end SecondPass

/-! ## The claims -/

/-- C1: when `VK_USE_64_BIT_PTR_DEFINES` is not predefined, the header defines
it as 1 exactly for the targets the specification lists (long-pointer mode,
64-bit Windows, 64-bit x86 without the 32-bit-pointer ABI variant, Itanium,
64-bit ARM, 64-bit PowerPC), and as 0 for every other combination of the
target signals; the definition is made by the header itself, on line 7 or 9. -/
theorem detection_selects_pointer_iff_spec_target (env : Env) (scope : Scope)
    (h : env.VK_USE_64_BIT_PTR_DEFINES = none) :
    ((processHeader env scope).env.VK_USE_64_BIT_PTR_DEFINES = some 1
        ↔ spec_pointerTarget env.signals)
    ∧ ((processHeader env scope).env.VK_USE_64_BIT_PTR_DEFINES = some 0
        ↔ ¬ spec_pointerTarget env.signals)
    ∧ (spec_pointerTarget env.signals →
        ⟨.defPtrDefines 1, false⟩ ∈ (processHeader env scope).defines)
    ∧ (¬ spec_pointerTarget env.signals →
        ⟨.defPtrDefines 0, false⟩ ∈ (processHeader env scope).defines) := by
  have hs : spec_pointerTarget env.signals ↔ line6 env.signals = true := (line6_iff _).symm
  rw [processHeader_env, processHeader_defines, hs]
  cases hl : line6 env.signals <;> simp [ptrDefinesAfter, definesOf, h, hl]

/-- Witness of C1: a 64-bit ARM build with nothing predefined. -/
theorem detection_selects_pointer_iff_spec_target_witness :
    (Env.plain signals_aarch64 none none).VK_USE_64_BIT_PTR_DEFINES = none
    ∧ (processHeader (Env.plain signals_aarch64 none none)
        Scope.empty).env.VK_USE_64_BIT_PTR_DEFINES = some 1 :=
  ⟨rfl, (detection_selects_pointer_iff_spec_target (Env.plain signals_aarch64 none none)
    Scope.empty rfl).1.2 (by decide)⟩

/-- C2: a predefined `VK_USE_64_BIT_PTR_DEFINES` is left as it is (the header
executes no `#define` of it), the representation of the non-dispatchable
handles the header then selects is the pointer one when the value is 1 and the
64-bit integer one otherwise, and nothing the header defines or declares
changes when the target signals change. -/
theorem override_is_honoured (env : Env) (scope : Scope) (v : Int)
    (h : env.VK_USE_64_BIT_PTR_DEFINES = some v) :
    (processHeader env scope).env.VK_USE_64_BIT_PTR_DEFINES = some v
    ∧ (∀ w a, ⟨.defPtrDefines w, a⟩ ∉ (processHeader env scope).defines)
    ∧ (env.VK_DEFINE_NON_DISPATCHABLE_HANDLE = none →
        (processHeader env scope).env.VK_DEFINE_NON_DISPATCHABLE_HANDLE
          = some (if v = 1 then .structPtr else .uint64)
        ∧ ∀ object ∈ nonDispatchableHandles,
            (processHeader env scope).declared.lookup object
              = some (if v = 1 then .structPtr (object ++ "_T") else .uint64_t))
    ∧ (∀ s : TargetSignals,
        (processHeader { env with signals := s } scope).declared
            = (processHeader env scope).declared
        ∧ (processHeader { env with signals := s } scope).defines
            = (processHeader env scope).defines
        ∧ (processHeader { env with signals := s } scope).env
            = { (processHeader env scope).env with signals := s }) := by
  refine ⟨?_, ?_, ?_, ?_⟩
  · simp [processHeader_env, ptrDefinesAfter, h]
  · intro w a
    rw [processHeader_defines]
    simp [definesOf, h]
  · intro hn
    refine ⟨?_, ?_⟩
    · simp [processHeader_env, nonDispatchableAfter, ptrDefinesAfter, h, hn]
    · intro object ho
      rw [processHeader_declared]
      simp [nonDispatchableHandles] at ho
      by_cases hv : v = 1 <;> rcases ho with rfl | rfl | rfl <;>
        simp [nonDispatchableAfter, ptrDefinesAfter, h, hn, hv, HandleBody.typeFor, List.lookup]
  · intro s
    simp [processHeader_env, processHeader_defines, processHeader_declared,
      nonDispatchableAfter, nullAfter, chosenNull, ptrDefinesAfter, definesOf, line15, h]

/-- Witness of C2: a 32-bit build with the override set to 1. -/
theorem override_is_honoured_witness :
    env_i386_override.VK_USE_64_BIT_PTR_DEFINES = some 1
    ∧ (processHeader env_i386_override Scope.empty).env.VK_USE_64_BIT_PTR_DEFINES = some 1 :=
  ⟨rfl, (override_is_honoured env_i386_override Scope.empty 1 rfl).1⟩

/-- Counterexample to C3 as stated: in a 64-bit C++17 build where
`VK_DEFINE_NON_DISPATCHABLE_HANDLE` is given from outside, the pointer
representation is chosen (`VK_USE_64_BIT_PTR_DEFINES` is 1 and the handles are
pointers) and the dialect is C++11 or later, the header is processed without a
diagnostic, and `VK_NULL_HANDLE` is the plain `0`, not `nullptr`. -/
theorem nullHandle_is_zero_when_handle_predefined :
    (processHeader env_x86_64_handlePredefined Scope.empty).env.VK_USE_64_BIT_PTR_DEFINES
        = some 1
    ∧ (processHeader env_x86_64_handlePredefined Scope.empty).declared.lookup "VkBuffer"
        = some (.structPtr "VkBuffer_T")
    ∧ line15 env_x86_64_handlePredefined = true
    ∧ (processHeader env_x86_64_handlePredefined Scope.empty).diagnostics = []
    ∧ (processHeader env_x86_64_handlePredefined Scope.empty).env.VK_NULL_HANDLE = some .zero
    ∧ (processHeader env_x86_64_handlePredefined Scope.empty).env.VK_NULL_HANDLE
        ≠ some .nullptr := by
  decide

/-- C3, amended: when `VK_DEFINE_NON_DISPATCHABLE_HANDLE` is not predefined,
`VK_NULL_HANDLE` is `nullptr` if `VK_USE_64_BIT_PTR_DEFINES` is 1 and the
dialect is C++11 or later, `((void*)0)` if it is 1 and the dialect is older or
C, and `0ULL` if it is not 1. When `VK_DEFINE_NON_DISPATCHABLE_HANDLE` is
predefined, lines 14-22 are skipped: a predefined `VK_NULL_HANDLE` is kept, and
otherwise it is the plain `0`. The header executes `#define VK_NULL_HANDLE 0`
exactly in that last case. -/
theorem nullHandle_selection (env : Env) (scope : Scope) :
    (env.VK_DEFINE_NON_DISPATCHABLE_HANDLE = none →
      (processHeader env scope).env.VK_NULL_HANDLE =
        some (if (processHeader env scope).env.VK_USE_64_BIT_PTR_DEFINES = some 1 then
                (if line15 env then .nullptr else .voidPtrZero)
              else .zeroULL))
    ∧ (env.VK_DEFINE_NON_DISPATCHABLE_HANDLE ≠ none →
      (processHeader env scope).env.VK_NULL_HANDLE = some (env.VK_NULL_HANDLE.getD .zero))
    ∧ ((∃ a, ⟨.defNull .zero, a⟩ ∈ (processHeader env scope).defines)
        ↔ (env.VK_DEFINE_NON_DISPATCHABLE_HANDLE ≠ none ∧ env.VK_NULL_HANDLE = none)) := by
  rw [processHeader_env, processHeader_defines]
  refine ⟨?_, ?_, ?_⟩
  · intro hn
    simp [nullAfter, chosenNull, hn]
  · intro hn
    cases hd : env.VK_DEFINE_NON_DISPATCHABLE_HANDLE with
    | none => exact absurd hd hn
    | some b => simp [nullAfter, hd]
  · cases hd : env.VK_DEFINE_NON_DISPATCHABLE_HANDLE <;> cases hh : env.VK_NULL_HANDLE <;>
      simp [definesOf, chosenNull, hd, hh] <;> (repeat' split) <;> simp

/-- Witness of C3: a 64-bit C++17 build with nothing predefined gets `nullptr`. -/
theorem nullHandle_selection_witness :
    (Env.plain signals_x86_64 (some 201703) none).VK_DEFINE_NON_DISPATCHABLE_HANDLE = none
    ∧ (processHeader (Env.plain signals_x86_64 (some 201703) none) Scope.empty).env.VK_NULL_HANDLE
        = some .nullptr :=
  ⟨rfl, ((nullHandle_selection (Env.plain signals_x86_64 (some 201703) none) Scope.empty).1
    rfl).trans (by decide)⟩

/-- Counterexample to C4 as stated: in a 32-bit build where `VK_NULL_HANDLE` is
predefined as `0` and `VK_DEFINE_NON_DISPATCHABLE_HANDLE` is not predefined, the
header executes `#define VK_NULL_HANDLE 0ULL` (line 21) while `VK_NULL_HANDLE`
is defined, which is a redefinition with another replacement list. -/
theorem nullHandle_redefined_when_predefined :
    env_i386_nullPredefined.VK_NULL_HANDLE = some .zero
    ∧ ⟨.defNull .zeroULL, true⟩
        ∈ (processHeader env_i386_nullPredefined Scope.empty).defines
    ∧ (processHeader env_i386_nullPredefined Scope.empty).diagnostics
        = [.redefined "VK_NULL_HANDLE"] := by
  decide

/-- C4, amended: the header executes a `#define` of `VK_NULL_HANDLE` while
`VK_NULL_HANDLE` is defined exactly when `VK_NULL_HANDLE` is predefined and
`VK_DEFINE_NON_DISPATCHABLE_HANDLE` is not; in every other configuration it
never does. In every configuration it executes at most one `#define` of
`VK_NULL_HANDLE`, and `VK_NULL_HANDLE` is defined afterwards. -/
theorem nullHandle_defined_while_defined_iff (env : Env) (scope : Scope) :
    ((∃ b, ⟨.defNull b, true⟩ ∈ (processHeader env scope).defines)
        ↔ (env.VK_NULL_HANDLE ≠ none ∧ env.VK_DEFINE_NON_DISPATCHABLE_HANDLE = none))
    ∧ ((processHeader env scope).defines.countP (fun d => d.directive.isDefNull) ≤ 1)
    ∧ (processHeader env scope).env.VK_NULL_HANDLE ≠ none := by
  rw [processHeader_env, processHeader_defines]
  refine ⟨?_, ?_, ?_⟩
  · cases hd : env.VK_DEFINE_NON_DISPATCHABLE_HANDLE <;> cases hh : env.VK_NULL_HANDLE <;>
      simp [definesOf, hd, hh]
  · cases hd : env.VK_DEFINE_NON_DISPATCHABLE_HANDLE <;> cases hh : env.VK_NULL_HANDLE <;>
      cases hu : env.VK_USE_64_BIT_PTR_DEFINES <;>
      simp [definesOf, List.countP_cons, Directive.isDefNull, hd, hh, hu]
  · simp

/-- Counterexample to C5 as stated: in a 64-bit C++17 build with nothing
predefined the header is processed once without a diagnostic, and processing
it a second time defines `struct VkImageSubresourceRange` again, which is a
duplicate definition. -/
theorem second_pass_redefines_struct :
    (processHeader (Env.plain signals_x86_64 (some 201703) none) Scope.empty).diagnostics = []
    ∧ (processTwice (Env.plain signals_x86_64 (some 201703) none) Scope.empty).structsDefined
        = ["VkImageSubresourceRange"]
    ∧ (processTwice (Env.plain signals_x86_64 (some 201703) none) Scope.empty).diagnostics
        = [.structRedefinition "VkImageSubresourceRange"] := by
  decide

/-- C5, amended: when the header has been processed once without a diagnostic,
processing it a second time redefines no name with another replacement list
(only line 3 executes a `#define`, with the replacement list in force), and
leaves the names defined, the typedefs and the structs in scope unchanged; it
issues the same typedefs again, which is accepted in C++ and from C11 on and
diagnosed before C11; and it defines `struct VkImageSubresourceRange` again,
which is diagnosed as a redefinition in every dialect: the header has no
include guard. -/
theorem second_pass_outcome (env : Env) (scope : Scope)
    (h : (processHeader env scope).diagnostics = []) :
    (processTwice env scope).env = (processHeader env scope).env
    ∧ (processTwice env scope).scope = (processHeader env scope).scope
    ∧ (processTwice env scope).defines = [⟨.defHandle .structPtr, true⟩]
    ∧ (∀ name, Diagnostic.redefined name ∉ (processTwice env scope).diagnostics)
    ∧ (processTwice env scope).declared = (processHeader env scope).declared
    ∧ Diagnostic.structRedefinition "VkImageSubresourceRange"
        ∈ (processTwice env scope).diagnostics
    ∧ (redeclarationAllowed env = true →
        (processTwice env scope).diagnostics
          = [.structRedefinition "VkImageSubresourceRange"])
    ∧ (redeclarationAllowed env = false →
        (processTwice env scope).diagnostics
          = [.typedefRedeclared "VkBuffer", .typedefRedeclared "VkImage",
             .typedefRedeclared "VkInstance", .typedefRedeclared "VkPhysicalDevice",
             .typedefRedeclared "VkDevice", .typedefRedeclared "VkCommandBuffer",
             .typedefRedeclared "VkImageView", .typedefRedeclared "VkFormat",
             .typedefRedeclared "VkFlags", .typedefRedeclared "VkImageAspectFlags",
             .structRedefinition "VkImageSubresourceRange",
             .typedefRedeclared "VkImageSubresourceRange"]) := by
  have hag := processHeader_agrees env scope h
  have hra := redeclarationAllowed_processHeader env scope
  have hdef := definitions_second_pass env scope (processHeader env scope).scope
  have hnd : nonDispatchableAfter (processHeader env scope).env = nonDispatchableAfter env := by
    rw [processHeader_env]; simp [nonDispatchableAfter]
  have hdeclared : (processTwice env scope).declared = (processHeader env scope).declared := by
    unfold processTwice
    rw [processHeader_declared, processHeader_declared, hnd]
  have hT : processTwice env scope = (lines37to43 ++ lines45to48 ++ lines50to56).foldl
      Outcome.declare (definitions (Outcome.start (processHeader env scope).env
        (processHeader env scope).scope)) := by
    unfold processTwice
    rw [processHeader_eq (processHeader env scope).env]
  rw [hT, hdef]
  rw [hT, hdef] at hdeclared
  clear hT hdef hnd h
  generalize processHeader env scope = p at *
  obtain ⟨hscope, hdiag⟩ :=
    foldl_declare_repeat (lines37to43 ++ lines45to48 ++ lines50to56)
      ⟨p.env, p.scope, [⟨.defHandle .structPtr, true⟩], [], [], []⟩ hag
  refine ⟨?_, ?_, ?_, ?_, hdeclared, ?_⟩
  · rw [foldl_declare_env]
  · rw [hscope]
  · rw [foldl_declare_defines]
  · intro name
    rw [hdiag]
    cases hr : redeclarationAllowed p.env <;>
      simp [lines37to43, lines45to48, lines50to56, repeatDiagnostics, hr]
  · rw [hdiag]
    cases hr : redeclarationAllowed env <;> rw [hr] at hra <;>
      simp [lines37to43, lines45to48, lines50to56, repeatDiagnostics, hra]

/-- Witness of C5: a 32-bit C99 build with nothing predefined. -/
theorem second_pass_outcome_witness :
    (processHeader (Env.plain signals_i386 none (some 199901)) Scope.empty).diagnostics = []
    ∧ (processTwice (Env.plain signals_i386 none (some 199901)) Scope.empty).scope
        = (processHeader (Env.plain signals_i386 none (some 199901)) Scope.empty).scope
    ∧ Diagnostic.structRedefinition "VkImageSubresourceRange"
        ∈ (processTwice (Env.plain signals_i386 none (some 199901)) Scope.empty).diagnostics :=
  ⟨by decide,
   (second_pass_outcome (Env.plain signals_i386 none (some 199901)) Scope.empty
      (by decide)).2.1,
   (second_pass_outcome (Env.plain signals_i386 none (some 199901)) Scope.empty
      (by decide)).2.2.2.2.2.1⟩

/-- Counterexample to C6 as stated: on a 32-bit x86 target (4-byte pointers)
with the override `VK_USE_64_BIT_PTR_DEFINES=1`, the header selects the pointer
representation, so `VkBuffer` is `struct VkBuffer_T*`, whose size is 4 bytes,
not 8. -/
theorem handle_size_is_4_on_i386_with_override :
    (processHeader env_i386_override Scope.empty).diagnostics = []
    ∧ (processHeader env_i386_override Scope.empty).declared.lookup "VkBuffer"
        = some (.structPtr "VkBuffer_T")
    ∧ (CType.structPtr "VkBuffer_T").sizeOf abi_i386 = some 4
    ∧ (CType.structPtr "VkBuffer_T").sizeOf abi_i386 ≠ some 8
    ∧ (CType.structPtr "VkBuffer_T").alignOf abi_i386 ≠ some 8 := by
  decide

/-- C6, amended: each non-dispatchable handle type has the size and alignment
of a data pointer of the target when the pointer representation is selected,
and the size 8 and the alignment of `uint64_t` when the integer representation
is selected; so its size is 8 bytes exactly when the integer representation is
selected or the target has 8-byte pointers. -/
theorem handle_size_by_representation (env : Env) (scope : Scope) (abi : TargetABI)
    (object : String) (h : object ∈ nonDispatchableHandles) :
    ∃ ty, (processHeader env scope).declared.lookup object = some ty
      ∧ ((processHeader env scope).env.VK_DEFINE_NON_DISPATCHABLE_HANDLE = some .structPtr →
          ty.sizeOf abi = some abi.pointerSize ∧ ty.alignOf abi = some abi.pointerAlign)
      ∧ ((processHeader env scope).env.VK_DEFINE_NON_DISPATCHABLE_HANDLE = some .uint64 →
          ty.sizeOf abi = some 8 ∧ ty.alignOf abi = some abi.uint64Align)
      ∧ (ty.sizeOf abi = some 8 ↔
          ((processHeader env scope).env.VK_DEFINE_NON_DISPATCHABLE_HANDLE = some .uint64
            ∨ abi.pointerSize = 8)) := by
  rw [processHeader_env, processHeader_declared]
  simp [nonDispatchableHandles] at h
  cases hb : nonDispatchableAfter env <;> rcases h with rfl | rfl | rfl <;>
    simp [hb, HandleBody.typeFor, List.lookup, CType.sizeOf, CType.alignOf]

/-- Witness of C6: `VkImage` on a 64-bit ARM build. -/
theorem handle_size_by_representation_witness :
    "VkImage" ∈ nonDispatchableHandles
    ∧ ∃ ty, (processHeader (Env.plain signals_aarch64 none none) Scope.empty).declared.lookup
          "VkImage" = some ty
      ∧ ty.sizeOf abi_lp64 = some 8 := by
  refine ⟨by decide, ?_⟩
  obtain ⟨ty, h1, _, _, h4⟩ := handle_size_by_representation
    (Env.plain signals_aarch64 none none) Scope.empty abi_lp64 "VkImage" (by decide)
  exact ⟨ty, h1, h4.2 (Or.inr rfl)⟩

/-- C7: two different non-dispatchable handle names are declared with the same
type exactly when the integer representation is selected. On a 64-bit ARM
target with nothing predefined `VkBuffer` and `VkImage` are pointers to the
different struct tags `VkBuffer_T` and `VkImage_T`; on a 32-bit x86 target
(none of the signals of line 6) with nothing predefined both are `uint64_t`. -/
theorem handle_types_equal_iff_integer (env : Env) (scope : Scope) :
    (∀ a ∈ nonDispatchableHandles, ∀ b ∈ nonDispatchableHandles, a ≠ b →
      (processHeader env scope).declared.lookup a ≠ none
      ∧ ((processHeader env scope).declared.lookup a = (processHeader env scope).declared.lookup b
          ↔ (processHeader env scope).env.VK_DEFINE_NON_DISPATCHABLE_HANDLE = some .uint64))
    ∧ (env.signals.__aarch64__ = true → env.VK_USE_64_BIT_PTR_DEFINES = none →
        env.VK_DEFINE_NON_DISPATCHABLE_HANDLE = none →
        (processHeader env scope).declared.lookup "VkBuffer" = some (.structPtr "VkBuffer_T")
        ∧ (processHeader env scope).declared.lookup "VkImage" = some (.structPtr "VkImage_T")
        ∧ CType.structPtr "VkBuffer_T" ≠ CType.structPtr "VkImage_T")
    ∧ (line6 env.signals = false → env.VK_USE_64_BIT_PTR_DEFINES = none →
        env.VK_DEFINE_NON_DISPATCHABLE_HANDLE = none →
        (processHeader env scope).declared.lookup "VkBuffer" = some .uint64_t
        ∧ (processHeader env scope).declared.lookup "VkImage" = some .uint64_t) := by
  rw [processHeader_env, processHeader_declared]
  refine ⟨?_, ?_, ?_⟩
  · intro a ha b hb hab
    simp [nonDispatchableHandles] at ha hb
    cases hn : nonDispatchableAfter env <;> rcases ha with rfl | rfl | rfl <;>
      rcases hb with rfl | rfl | rfl <;>
      simp [HandleBody.typeFor, List.lookup] at hab ⊢
  · intro ha hu hn
    have hl : line6 env.signals = true := by simp [line6, ha]
    simp [nonDispatchableAfter, ptrDefinesAfter, hu, hn, hl, HandleBody.typeFor, List.lookup]
  · intro hl hu hn
    simp [nonDispatchableAfter, ptrDefinesAfter, hu, hn, hl, HandleBody.typeFor, List.lookup]

/-- Witness of C7: `VkBuffer` and `VkImageView` on a 64-bit ARM build. -/
theorem handle_types_equal_iff_integer_witness :
    (Env.plain signals_aarch64 none none).signals.__aarch64__ = true
    ∧ (processHeader (Env.plain signals_aarch64 none none) Scope.empty).declared.lookup "VkBuffer"
        = some (.structPtr "VkBuffer_T")
    ∧ (processHeader (Env.plain signals_aarch64 none none) Scope.empty).declared.lookup "VkBuffer"
        ≠ (processHeader (Env.plain signals_aarch64 none none) Scope.empty).declared.lookup
            "VkImageView" :=
  ⟨rfl,
   ((handle_types_equal_iff_integer (Env.plain signals_aarch64 none none) Scope.empty).2.1
      rfl rfl rfl).1,
   fun h => absurd (((handle_types_equal_iff_integer (Env.plain signals_aarch64 none none)
      Scope.empty).1 "VkBuffer" (by decide) "VkImageView" (by decide) (by decide)).2.1 h)
      (by decide)⟩

/-- C8: in every configuration `VkInstance`, `VkPhysicalDevice`, `VkDevice` and
`VkCommandBuffer` are declared as pointers to the struct tag of their own name
followed by `_T`, whatever the target signals and the override, never as an
integer; the four types are pairwise different; `VK_DEFINE_HANDLE` has the
replacement list of line 3 when they are declared; and when the header raises
no diagnostic the four names are in scope with these types afterwards. -/
theorem dispatchable_handles_are_pointers (env : Env) (scope : Scope) :
    (processHeader env scope).env.VK_DEFINE_HANDLE = some .structPtr
    ∧ (∀ object ∈ dispatchableHandles,
        (processHeader env scope).declared.lookup object = some (.structPtr (object ++ "_T")))
    ∧ (∀ object ∈ dispatchableHandles, ∀ ty,
        (processHeader env scope).declared.lookup object = some ty →
          ty.isPointer = true ∧ ty ≠ .uint64_t)
    ∧ (∀ a ∈ dispatchableHandles, ∀ b ∈ dispatchableHandles, a ≠ b →
        (processHeader env scope).declared.lookup a
          ≠ (processHeader env scope).declared.lookup b)
    ∧ ((processHeader env scope).diagnostics = [] →
        ∀ object ∈ dispatchableHandles,
          (processHeader env scope).scope.typedefs.lookup object
            = some (.structPtr (object ++ "_T"))) := by
  refine ⟨?_, ?_, ?_, ?_, ?_⟩
  case refine_5 =>
    intro h object ho
    have hmem : Decl.VK_DEFINE_HANDLE object ∈ lines37to43 ++ lines45to48 ++ lines50to56 := by
      simp [dispatchableHandles] at ho
      rcases ho with rfl | rfl | rfl | rfl <;> simp [lines37to43]
    obtain ⟨b, hb, hl⟩ := processHeader_agrees env scope h _ hmem
    rw [processHeader_env] at hb
    simp only [Option.some.injEq] at hb
    subst hb
    exact hl
  all_goals try rw [processHeader_env]
  all_goals try rw [processHeader_declared]
  · intro object ho
    simp [dispatchableHandles] at ho
    rcases ho with rfl | rfl | rfl | rfl <;> simp [List.lookup]
  · intro object ho ty
    simp [dispatchableHandles] at ho
    rcases ho with rfl | rfl | rfl | rfl <;> simp [List.lookup] <;> rintro rfl <;>
      simp [CType.isPointer]
  · intro a ha b hb hab
    simp [dispatchableHandles] at ha hb
    rcases ha with rfl | rfl | rfl | rfl <;> rcases hb with rfl | rfl | rfl | rfl <;>
      simp [List.lookup] at hab ⊢

/-- C9: every replacement list the header gives `VK_NULL_HANDLE` is one of
`nullptr`, `((void*)0)`, `0ULL` and `0`, and its value is zero, read as an
integer or as an address. -/
theorem nullHandle_value_is_zero (env : Env) (scope : Scope) (b : NullBody) (a : Bool)
    (h : ⟨.defNull b, a⟩ ∈ (processHeader env scope).defines) :
    (b = .nullptr ∨ b = .voidPtrZero ∨ b = .zeroULL ∨ b = .zero)
    ∧ ∃ v, b.value = some v ∧ v.toNat = 0 := by
  rw [processHeader_defines] at h
  have hb : b = .nullptr ∨ b = .voidPtrZero ∨ b = .zeroULL ∨ b = .zero := by
    simp only [definesOf, chosenNull] at h
    cases hd : env.VK_DEFINE_NON_DISPATCHABLE_HANDLE <;> cases hh : env.VK_NULL_HANDLE <;>
      cases hu : env.VK_USE_64_BIT_PTR_DEFINES <;> simp [hd, hh, hu] at h <;>
      (try split at h) <;> (try split at h) <;> simp_all
  refine ⟨hb, ?_⟩
  rcases hb with rfl | rfl | rfl | rfl <;> simp [NullBody.value, CValue.toNat]

/-- Witness of C9: the `0ULL` of a 32-bit build with nothing predefined. -/
theorem nullHandle_value_is_zero_witness :
    (⟨.defNull .zeroULL, false⟩ : DefineEvent)
        ∈ (processHeader (Env.plain signals_i386 none none) Scope.empty).defines
    ∧ ∃ v, NullBody.zeroULL.value = some v ∧ v.toNat = 0 :=
  ⟨by decide, (nullHandle_value_is_zero (Env.plain signals_i386 none none) Scope.empty
    .zeroULL false (by decide)).2⟩

/-- C10: when neither `VK_NULL_HANDLE` nor `VK_DEFINE_NON_DISPATCHABLE_HANDLE`
is predefined, `VK_NULL_HANDLE` is a pointer literal (`nullptr` or
`((void*)0)`) exactly when the non-dispatchable handles are declared as
pointers, and `0ULL` exactly when they are declared as `uint64_t`; both follow
the test `VK_USE_64_BIT_PTR_DEFINES == 1`, so an override other than 1 gives the
integer form of both. -/
theorem sentinel_agrees_with_representation (env : Env) (scope : Scope)
    (hNull : env.VK_NULL_HANDLE = none)
    (hHandle : env.VK_DEFINE_NON_DISPATCHABLE_HANDLE = none) :
    ∃ n, (processHeader env scope).env.VK_NULL_HANDLE = some n
      ∧ ⟨.defNull n, false⟩ ∈ (processHeader env scope).defines
      ∧ (n = .nullptr ∨ n = .voidPtrZero ∨ n = .zeroULL)
      ∧ (n.isPointer = true ↔
          ∀ object ∈ nonDispatchableHandles,
            (processHeader env scope).declared.lookup object = some (.structPtr (object ++ "_T")))
      ∧ (n = .zeroULL ↔
          ∀ object ∈ nonDispatchableHandles,
            (processHeader env scope).declared.lookup object = some .uint64_t)
      ∧ (n.isPointer = true ↔ ptrDefinesIsOne (processHeader env scope).env = true)
      ∧ ((processHeader env scope).env.VK_DEFINE_NON_DISPATCHABLE_HANDLE = some .structPtr
          ↔ ptrDefinesIsOne (processHeader env scope).env = true)
      ∧ (∀ v, env.VK_USE_64_BIT_PTR_DEFINES = some v → v ≠ 1 →
          n = .zeroULL
          ∧ (processHeader env scope).env.VK_DEFINE_NON_DISPATCHABLE_HANDLE = some .uint64) := by
  rw [processHeader_env, processHeader_declared, processHeader_defines]
  refine ⟨nullAfter env, rfl, ?_⟩
  by_cases hp : ptrDefinesAfter env = 1 <;> cases h15 : line15 env <;>
    simp [definesOf, nullAfter, chosenNull, nonDispatchableAfter, hNull, hHandle, hp, h15,
      nonDispatchableHandles, HandleBody.typeFor, List.lookup, NullBody.isPointer,
      ptrDefinesIsOne] <;>
    intro v hv <;> simp [ptrDefinesAfter, hv] at hp <;> simp [hp]

/-- Witness of C10: a 32-bit build with the override set to 2. -/
theorem sentinel_agrees_with_representation_witness :
    env_i386_override2.VK_NULL_HANDLE = none
    ∧ env_i386_override2.VK_DEFINE_NON_DISPATCHABLE_HANDLE = none
    ∧ ∃ n, (processHeader env_i386_override2 Scope.empty).env.VK_NULL_HANDLE = some n
        ∧ n = .zeroULL := by
  refine ⟨rfl, rfl, ?_⟩
  obtain ⟨n, h1, _, _, _, _, _, _, h7⟩ :=
    sentinel_agrees_with_representation env_i386_override2 Scope.empty rfl rfl
  exact ⟨n, h1, (h7 2 rfl (by decide)).1⟩

end DlssWrapper
